import Mathlib

set_option linter.unusedVariables false

/-!
Verification of the PFT (pulmonary function test) interpreter of
`src/app.py`, shallowly embedded in Lean 4.  Python floats are modelled
as rationals (`ℚ`); the `gender` and `ethnicity` string arguments are
modelled as `String`, matching the string comparisons of the source;
Python's `None`-able optional measurement arguments become `Option ℚ`;
the returned Python list of strings becomes `List String`.
-/

namespace PftDl

/-- Model of Python float formatting to two decimal places (the
f-string directive used on line 39 and lines 69-78 of `app.py`):
round the value to the nearest hundredth, ties to even. -/
def roundHalfEven (q : ℚ) : ℤ :=
  if q - ⌊q⌋ < 1/2 then ⌊q⌋
  else if q - ⌊q⌋ > 1/2 then ⌊q⌋ + 1
  else if ⌊q⌋ % 2 = 0 then ⌊q⌋ else ⌊q⌋ + 1

/-- Left-pad the fractional hundredths to two digits. -/
def pad2 (n : Nat) : String :=
  if n < 10 then "0" ++ toString n else toString n

/-- Function `format2 q` models the Python f-string directive `.2f` applied to `q`. -/
def format2 (q : ℚ) : String :=
  let c := roundHalfEven (q * 100)
  let sign := if q < 0 then "-" else ""
  sign ++ toString (c.natAbs / 100) ++ "." ++ pad2 (c.natAbs % 100)

/-- The ethnicity-based adjustment factor selected by the `if`/`elif`
chain on lines 7-14 of `app.py` inside `calculate_lln`. -/
def adjustment_factor (ethnicity : String) : ℚ :=
  if ethnicity = "Caucasian" then 1.0
  else if ethnicity = "African American" then 0.88
  else if ethnicity = "Asian" then 0.94
  else 1.0

/-- Function `calculate_lln` of `app.py` (lines 5-18): an ethnicity-adjusted
placeholder formula, clamped non-negative with `max(0, lln_value)`.
The `gender` argument is accepted but unused, as in the source. -/
def calculate_lln (parameter age : ℚ) (gender : String) (height : ℚ)
    (ethnicity : String) : ℚ :=
  let lln_value := adjustment_factor ethnicity * (parameter - age * 0.02 + height * 0.05)
  max 0 lln_value

/-- Function `calculate_pef` of `app.py` (lines 22-28): NHANES-style peak
expiratory flow placeholder; `None` (here `none`) for a gender other
than Male or Female. -/
def calculate_pef (age : ℚ) (gender : String) (height : ℚ) : Option ℚ :=
  if gender = "Male" then some (187 + (5.48 * height) - (0.034 * age))
  else if gender = "Female" then some (153 + (4.50 * height) - (0.026 * age))
  else none

/-- The first line appended by the obstructive branch (line 39 of
`app.py`), with the LLN cutoff formatted to two decimals. -/
def obstructive_head (lln : ℚ) : String :=
  "Obstructive pattern detected (LLN-adjusted cutoff: " ++ format2 lln ++ ")."

/-- The severity `if`/`elif`/`elif` chain on lines 40-48 of `app.py`,
graded on `fev1` (percent predicted). -/
def severity_lines (fev1 : ℚ) : List String :=
  if fev1 ≥ 70 then
    ["Severity: Mild obstruction.",
     "Next steps: Consider a short-acting beta-agonist (e.g., albuterol). Reassess if symptoms persist."]
  else if 50 ≤ fev1 ∧ fev1 < 70 then
    ["Severity: Moderate obstruction.",
     "Next steps: Consider adding long-acting bronchodilators (e.g., LABA or LAMA). Evaluate for inhaled corticosteroids if needed."]
  else if fev1 < 50 then
    ["Severity: Severe obstruction.",
     "Next steps: Refer to a pulmonologist. Consider advanced therapies like combination inhalers or oxygen therapy if indicated."]
  else []

/-- The obstructive-pattern rule (lines 38-48 of `app.py`). -/
def obstructive_lines (fev1 fev1_fvc fev1_fvc_lln : ℚ) : List String :=
  if fev1_fvc < fev1_fvc_lln then obstructive_head fev1_fvc_lln :: severity_lines fev1
  else []

/-- The restrictive-pattern rule (lines 51-53 of `app.py`). -/
def restrictive_lines (fvc fev1_fvc fev1_fvc_lln : ℚ) : List String :=
  if fvc < 80 ∧ fev1_fvc ≥ fev1_fvc_lln then
    ["Restrictive pattern detected.",
     "Next steps: Evaluate for interstitial lung disease, obesity, or neuromuscular disorders. Consider high-resolution CT or referral to a specialist."]
  else []

/-- The mixed-pattern rule (lines 56-58 of `app.py`). -/
def mixed_lines (fev1_fvc fvc fev1_fvc_lln : ℚ) : List String :=
  if fev1_fvc < fev1_fvc_lln ∧ fvc < 80 then
    ["Mixed obstructive and restrictive pattern detected.",
     "Next steps: Comprehensive workup needed. Evaluate for concurrent obstructive and restrictive conditions. Referral to pulmonology recommended."]
  else []

/-- The DLCO_SB rule (lines 61-66 of `app.py`), only when provided. -/
def dlco_lines (dlco_sb : Option ℚ) : List String :=
  match dlco_sb with
  | none => []
  | some d =>
    if d < 80 then
      ["Reduced DLCO_SB: Suggests impaired gas exchange.",
       "Next steps: Investigate causes such as interstitial lung disease, pulmonary hypertension, or emphysema. Consider echocardiography or CT imaging."]
    else ["DLCO_SB is within normal limits."]

/-- The DL/VA informational line (lines 68-69 of `app.py`). -/
def dl_va_lines (dl_va : Option ℚ) : List String :=
  match dl_va with
  | none => []
  | some v => ["DL/VA ratio: " ++ format2 v ++ ". Interpretation depends on clinical context (e.g., lung volume and gas exchange)."]

/-- The VA_SB informational line (lines 71-72 of `app.py`). -/
def va_sb_lines (va_sb : Option ℚ) : List String :=
  match va_sb with
  | none => []
  | some v => ["VA_SB: " ++ format2 v ++ " L. This represents the alveolar volume."]

/-- The IVC_SB informational line (lines 74-75 of `app.py`). -/
def ivc_sb_lines (ivc_sb : Option ℚ) : List String :=
  match ivc_sb with
  | none => []
  | some v => ["IVC_SB: " ++ format2 v ++ " L. Represents inspiratory capacity during single breath testing."]

/-- The breath-holding-time informational line (lines 77-78 of `app.py`). -/
def bht_lines (bht : Option ℚ) : List String :=
  match bht with
  | none => []
  | some v => ["Breath-holding time (BHT): " ++ format2 v ++ " seconds. Ensure proper technique during test."]

/-- The two-line fallback appended when no rule fired (lines 80-82 of
`app.py`). -/
def normal_lines : List String :=
  ["Normal PFT values.",
   "Next steps: No action needed. Encourage routine follow-up if indicated."]

/-- The `interpretation` list built by lines 32-78 of `app.py`: the
imperative `interpretation.append(...)` calls are modelled as the
concatenation, in source order, of the lines each independent rule
contributes.  `fev1_fvc_lln` is computed on line 35 as
`calculate_lln(1.0, age, gender, height, ethnicity)`. -/
def interpretation_list (fev1 fvc fev1_fvc age : ℚ) (gender : String) (height : ℚ)
    (ethnicity : String) (dlco_sb dl_va va_sb ivc_sb bht : Option ℚ) : List String :=
  let fev1_fvc_lln := calculate_lln 1.0 age gender height ethnicity
  obstructive_lines fev1 fev1_fvc fev1_fvc_lln ++
  restrictive_lines fvc fev1_fvc fev1_fvc_lln ++
  mixed_lines fev1_fvc fvc fev1_fvc_lln ++
  dlco_lines dlco_sb ++
  dl_va_lines dl_va ++
  va_sb_lines va_sb ++
  ivc_sb_lines ivc_sb ++
  bht_lines bht

/-- Function `interpret_pft` of `app.py` (lines 31-84): the accumulated
`interpretation` list, or the two-line "normal" fallback when it is
empty (Python's `if not interpretation:` on line 80). -/
def interpret_pft (fev1 fvc fev1_fvc age : ℚ) (gender : String) (height : ℚ)
    (ethnicity : String) (dlco_sb dl_va va_sb ivc_sb bht : Option ℚ) : List String :=
  let interpretation :=
    interpretation_list fev1 fvc fev1_fvc age gender height ethnicity dlco_sb dl_va va_sb ivc_sb bht
  if interpretation = [] then normal_lines else interpretation

/-! ### Helper lemmas -/

/-- Two strings differ when they have different first characters; the
left one is a concatenation whose first chunk is non-empty. -/
lemma string_append2_ne (p s t q : String) (c d : Char)
    (hp : p.data.head? = some c) (hq : q.data.head? = some d) (hcd : c ≠ d) :
    p ++ s ++ t ≠ q := by
  intro h
  have hd : p.data ++ s.data ++ t.data = q.data := by
    rw [← String.data_append, ← String.data_append, h]
  cases hp' : p.data with
  | nil => rw [hp'] at hp; cases hp
  | cons a l =>
    rw [hp', List.head?_cons] at hp
    rw [hp', List.cons_append, List.cons_append] at hd
    rw [← hd, List.head?_cons] at hq
    injection hp with hac
    injection hq with had
    exact hcd (hac.symm.trans had)

lemma mem_severity_lines {s : String} {f : ℚ} (h : s ∈ severity_lines f) :
    s = "Severity: Mild obstruction." ∨
    s = "Next steps: Consider a short-acting beta-agonist (e.g., albuterol). Reassess if symptoms persist." ∨
    s = "Severity: Moderate obstruction." ∨
    s = "Next steps: Consider adding long-acting bronchodilators (e.g., LABA or LAMA). Evaluate for inhaled corticosteroids if needed." ∨
    s = "Severity: Severe obstruction." ∨
    s = "Next steps: Refer to a pulmonologist. Consider advanced therapies like combination inhalers or oxygen therapy if indicated." := by
  unfold severity_lines at h
  split at h
  · simp at h; tauto
  · split at h
    · simp at h; tauto
    · split at h
      · simp at h; tauto
      · simp at h

lemma mem_obstructive_lines {s : String} {f r l : ℚ} (h : s ∈ obstructive_lines f r l) :
    s = obstructive_head l ∨ s ∈ severity_lines f := by
  unfold obstructive_lines at h
  split at h
  · simpa using h
  · simp at h

lemma mem_restrictive_lines {s : String} {v r l : ℚ} (h : s ∈ restrictive_lines v r l) :
    s = "Restrictive pattern detected." ∨
    s = "Next steps: Evaluate for interstitial lung disease, obesity, or neuromuscular disorders. Consider high-resolution CT or referral to a specialist." := by
  unfold restrictive_lines at h
  split at h
  · simpa using h
  · simp at h

lemma mem_mixed_lines {s : String} {r v l : ℚ} (h : s ∈ mixed_lines r v l) :
    s = "Mixed obstructive and restrictive pattern detected." ∨
    s = "Next steps: Comprehensive workup needed. Evaluate for concurrent obstructive and restrictive conditions. Referral to pulmonology recommended." := by
  unfold mixed_lines at h
  split at h
  · simpa using h
  · simp at h

lemma mem_dlco_lines {s : String} {o : Option ℚ} (h : s ∈ dlco_lines o) :
    s = "Reduced DLCO_SB: Suggests impaired gas exchange." ∨
    s = "Next steps: Investigate causes such as interstitial lung disease, pulmonary hypertension, or emphysema. Consider echocardiography or CT imaging." ∨
    s = "DLCO_SB is within normal limits." := by
  unfold dlco_lines at h
  match o with
  | none => simp at h
  | some d =>
    simp only at h
    split at h
    · simp at h; tauto
    · simp at h; tauto

lemma mem_dl_va_lines {s : String} {o : Option ℚ} (h : s ∈ dl_va_lines o) :
    ∃ q, s = "DL/VA ratio: " ++ format2 q ++ ". Interpretation depends on clinical context (e.g., lung volume and gas exchange)." := by
  unfold dl_va_lines at h
  match o with
  | none => simp at h
  | some v => exact ⟨v, by simpa using h⟩

lemma mem_va_sb_lines {s : String} {o : Option ℚ} (h : s ∈ va_sb_lines o) :
    ∃ q, s = "VA_SB: " ++ format2 q ++ " L. This represents the alveolar volume." := by
  unfold va_sb_lines at h
  match o with
  | none => simp at h
  | some v => exact ⟨v, by simpa using h⟩

lemma mem_ivc_sb_lines {s : String} {o : Option ℚ} (h : s ∈ ivc_sb_lines o) :
    ∃ q, s = "IVC_SB: " ++ format2 q ++ " L. Represents inspiratory capacity during single breath testing." := by
  unfold ivc_sb_lines at h
  match o with
  | none => simp at h
  | some v => exact ⟨v, by simpa using h⟩

lemma mem_bht_lines {s : String} {o : Option ℚ} (h : s ∈ bht_lines o) :
    ∃ q, s = "Breath-holding time (BHT): " ++ format2 q ++ " seconds. Ensure proper technique during test." := by
  unfold bht_lines at h
  match o with
  | none => simp at h
  | some v => exact ⟨v, by simpa using h⟩

/-- Master shape lemma: every line of the accumulated interpretation
list comes from one of the eight rules. -/
lemma mem_interpretation_list {s : String} {f v r a : ℚ} {g : String} {hgt : ℚ}
    {e : String} {d1 d2 d3 d4 d5 : Option ℚ}
    (h : s ∈ interpretation_list f v r a g hgt e d1 d2 d3 d4 d5) :
    (s = obstructive_head (calculate_lln 1.0 a g hgt e) ∨ s ∈ severity_lines f) ∨
    s ∈ restrictive_lines v r (calculate_lln 1.0 a g hgt e) ∨
    s ∈ mixed_lines r v (calculate_lln 1.0 a g hgt e) ∨
    s ∈ dlco_lines d1 ∨ s ∈ dl_va_lines d2 ∨ s ∈ va_sb_lines d3 ∨
    s ∈ ivc_sb_lines d4 ∨ s ∈ bht_lines d5 := by
  unfold interpretation_list at h
  simp only [List.mem_append] at h
  rcases h with ((((((h | h) | h) | h) | h) | h) | h) | h
  · exact Or.inl (mem_obstructive_lines h)
  all_goals tauto

/-- If the restrictive line was emitted, the restrictive condition of
line 51 of `app.py` held. -/
lemma restrictive_cond {v r l : ℚ}
    (h : "Restrictive pattern detected." ∈ restrictive_lines v r l) :
    v < 80 ∧ r ≥ l := by
  by_cases hc : v < 80 ∧ r ≥ l
  · exact hc
  · unfold restrictive_lines at h
    rw [if_neg hc] at h
    simp at h

/-- If the mixed line was emitted, the mixed condition of line 56 of
`app.py` held. -/
lemma mixed_cond {r v l : ℚ}
    (h : "Mixed obstructive and restrictive pattern detected." ∈ mixed_lines r v l) :
    r < l ∧ v < 80 := by
  by_cases hc : r < l ∧ v < 80
  · exact hc
  · unfold mixed_lines at h
    rw [if_neg hc] at h
    simp at h

lemma obstructive_lines_of_lt {f r l : ℚ} (h : r < l) :
    obstructive_lines f r l = obstructive_head l :: severity_lines f := by
  unfold obstructive_lines
  rw [if_pos h]

lemma obstructive_lines_of_not_lt {f r l : ℚ} (h : ¬ r < l) :
    obstructive_lines f r l = [] := by
  unfold obstructive_lines
  rw [if_neg h]

lemma severity_lines_mild {f : ℚ} (h : f ≥ 70) :
    severity_lines f =
      ["Severity: Mild obstruction.",
       "Next steps: Consider a short-acting beta-agonist (e.g., albuterol). Reassess if symptoms persist."] := by
  unfold severity_lines
  rw [if_pos h]

lemma severity_lines_moderate {f : ℚ} (h : 50 ≤ f ∧ f < 70) :
    severity_lines f =
      ["Severity: Moderate obstruction.",
       "Next steps: Consider adding long-acting bronchodilators (e.g., LABA or LAMA). Evaluate for inhaled corticosteroids if needed."] := by
  unfold severity_lines
  rw [if_neg (not_le.mpr h.2), if_pos h]

lemma severity_lines_severe {f : ℚ} (h : f < 50) :
    severity_lines f =
      ["Severity: Severe obstruction.",
       "Next steps: Refer to a pulmonologist. Consider advanced therapies like combination inhalers or oxygen therapy if indicated."] := by
  unfold severity_lines
  have h1 : ¬ f ≥ 70 := not_le.mpr (by linarith)
  have h2 : ¬ (50 ≤ f ∧ f < 70) := fun hc => absurd h (not_lt.mpr hc.1)
  rw [if_neg h1, if_neg h2, if_pos h]

/-- When the obstructive check fires, the interpretation list is
non-empty, so the fallback is not taken and the output is the list
itself. -/
lemma interpret_pft_of_obstructive {f v r a : ℚ} {g : String} {hgt : ℚ}
    {e : String} {d1 d2 d3 d4 d5 : Option ℚ}
    (h : r < calculate_lln 1.0 a g hgt e) :
    interpret_pft f v r a g hgt e d1 d2 d3 d4 d5 =
      interpretation_list f v r a g hgt e d1 d2 d3 d4 d5 := by
  unfold interpret_pft
  have hne : interpretation_list f v r a g hgt e d1 d2 d3 d4 d5 ≠ [] := by
    unfold interpretation_list
    simp only [obstructive_lines_of_lt h]
    simp
  rw [if_neg hne]

/-- The first character of a two-fold concatenation is the first
character of its (non-empty) first chunk. -/
lemma append2_head (p s t : String) (c : Char) (hp : p.data.head? = some c) :
    (p ++ s ++ t).data.head? = some c := by
  rw [String.data_append, String.data_append]
  cases hp' : p.data with
  | nil => rw [hp'] at hp; cases hp
  | cons a l =>
    rw [hp', List.head?_cons] at hp
    rw [List.cons_append, List.cons_append, List.head?_cons]
    exact hp

/-- A string starting with `S` can only have entered the
interpretation list through the severity branch. -/
lemma sevS_only {s : String} (hhead : s.data.head? = some 'S')
    {f v r a : ℚ} {g : String} {hgt : ℚ} {e : String} {d1 d2 d3 d4 d5 : Option ℚ}
    (h : s ∈ interpretation_list f v r a g hgt e d1 d2 d3 d4 d5) :
    s ∈ severity_lines f := by
  rcases mem_interpretation_list h with (h | h) | h | h | h | h | h | h | h
  · unfold obstructive_head at h
    have h2 := h ▸ hhead
    rw [append2_head _ _ _ 'O' (by decide)] at h2
    exact absurd h2 (by decide)
  · exact h
  · rcases mem_restrictive_lines h with h | h <;> exact absurd (h ▸ hhead) (by decide)
  · rcases mem_mixed_lines h with h | h <;> exact absurd (h ▸ hhead) (by decide)
  · rcases mem_dlco_lines h with h | h | h <;> exact absurd (h ▸ hhead) (by decide)
  · obtain ⟨q, hq⟩ := mem_dl_va_lines h
    have h2 := hq ▸ hhead
    rw [append2_head _ _ _ 'D' (by decide)] at h2
    exact absurd h2 (by decide)
  · obtain ⟨q, hq⟩ := mem_va_sb_lines h
    have h2 := hq ▸ hhead
    rw [append2_head _ _ _ 'V' (by decide)] at h2
    exact absurd h2 (by decide)
  · obtain ⟨q, hq⟩ := mem_ivc_sb_lines h
    have h2 := hq ▸ hhead
    rw [append2_head _ _ _ 'I' (by decide)] at h2
    exact absurd h2 (by decide)
  · obtain ⟨q, hq⟩ := mem_bht_lines h
    have h2 := hq ▸ hhead
    rw [append2_head _ _ _ 'B' (by decide)] at h2
    exact absurd h2 (by decide)

/-- If the restrictive line is in the interpretation list, the
restrictive condition held. -/
lemma restrictive_mem_interpretation {f v r a : ℚ} {g : String} {hgt : ℚ}
    {e : String} {d1 d2 d3 d4 d5 : Option ℚ}
    (h : "Restrictive pattern detected." ∈
      interpretation_list f v r a g hgt e d1 d2 d3 d4 d5) :
    v < 80 ∧ r ≥ calculate_lln 1.0 a g hgt e := by
  rcases mem_interpretation_list h with (h | h) | h | h | h | h | h | h | h
  · unfold obstructive_head at h
    exact absurd h.symm (string_append2_ne _ _ _ _ 'O' 'R'
      (by decide) (by decide) (by decide))
  · rcases mem_severity_lines h with h | h | h | h | h | h <;> exact absurd h (by decide)
  · exact restrictive_cond h
  · rcases mem_mixed_lines h with h | h <;> exact absurd h (by decide)
  · rcases mem_dlco_lines h with h | h | h <;> exact absurd h (by decide)
  · obtain ⟨q, hq⟩ := mem_dl_va_lines h
    exact absurd hq.symm (string_append2_ne _ _ _ _ 'D' 'R'
      (by decide) (by decide) (by decide))
  · obtain ⟨q, hq⟩ := mem_va_sb_lines h
    exact absurd hq.symm (string_append2_ne _ _ _ _ 'V' 'R'
      (by decide) (by decide) (by decide))
  · obtain ⟨q, hq⟩ := mem_ivc_sb_lines h
    exact absurd hq.symm (string_append2_ne _ _ _ _ 'I' 'R'
      (by decide) (by decide) (by decide))
  · obtain ⟨q, hq⟩ := mem_bht_lines h
    exact absurd hq.symm (string_append2_ne _ _ _ _ 'B' 'R'
      (by decide) (by decide) (by decide))

/-- If the mixed line is in the interpretation list, the mixed
condition held. -/
lemma mixed_mem_interpretation {f v r a : ℚ} {g : String} {hgt : ℚ}
    {e : String} {d1 d2 d3 d4 d5 : Option ℚ}
    (h : "Mixed obstructive and restrictive pattern detected." ∈
      interpretation_list f v r a g hgt e d1 d2 d3 d4 d5) :
    r < calculate_lln 1.0 a g hgt e ∧ v < 80 := by
  rcases mem_interpretation_list h with (h | h) | h | h | h | h | h | h | h
  · unfold obstructive_head at h
    exact absurd h.symm (string_append2_ne _ _ _ _ 'O' 'M'
      (by decide) (by decide) (by decide))
  · rcases mem_severity_lines h with h | h | h | h | h | h <;> exact absurd h (by decide)
  · rcases mem_restrictive_lines h with h | h <;> exact absurd h (by decide)
  · exact mixed_cond h
  · rcases mem_dlco_lines h with h | h | h <;> exact absurd h (by decide)
  · obtain ⟨q, hq⟩ := mem_dl_va_lines h
    exact absurd hq.symm (string_append2_ne _ _ _ _ 'D' 'M'
      (by decide) (by decide) (by decide))
  · obtain ⟨q, hq⟩ := mem_va_sb_lines h
    exact absurd hq.symm (string_append2_ne _ _ _ _ 'V' 'M'
      (by decide) (by decide) (by decide))
  · obtain ⟨q, hq⟩ := mem_ivc_sb_lines h
    exact absurd hq.symm (string_append2_ne _ _ _ _ 'I' 'M'
      (by decide) (by decide) (by decide))
  · obtain ⟨q, hq⟩ := mem_bht_lines h
    exact absurd hq.symm (string_append2_ne _ _ _ _ 'B' 'M'
      (by decide) (by decide) (by decide))

/-- The fallback "normal" line never occurs in the interpretation list
itself. -/
lemma normal_not_mem_interpretation {f v r a : ℚ} {g : String} {hgt : ℚ}
    {e : String} {d1 d2 d3 d4 d5 : Option ℚ}
    (h : "Normal PFT values." ∈ interpretation_list f v r a g hgt e d1 d2 d3 d4 d5) :
    False := by
  rcases mem_interpretation_list h with (h | h) | h | h | h | h | h | h | h
  · unfold obstructive_head at h
    exact string_append2_ne _ _ _ _ 'O' 'N' (by decide) (by decide) (by decide) h.symm
  · rcases mem_severity_lines h with h | h | h | h | h | h <;> exact absurd h (by decide)
  · rcases mem_restrictive_lines h with h | h <;> exact absurd h (by decide)
  · rcases mem_mixed_lines h with h | h <;> exact absurd h (by decide)
  · rcases mem_dlco_lines h with h | h | h <;> exact absurd h (by decide)
  · obtain ⟨q, hq⟩ := mem_dl_va_lines h
    exact string_append2_ne _ _ _ _ 'D' 'N' (by decide) (by decide) (by decide) hq.symm
  · obtain ⟨q, hq⟩ := mem_va_sb_lines h
    exact string_append2_ne _ _ _ _ 'V' 'N' (by decide) (by decide) (by decide) hq.symm
  · obtain ⟨q, hq⟩ := mem_ivc_sb_lines h
    exact string_append2_ne _ _ _ _ 'I' 'N' (by decide) (by decide) (by decide) hq.symm
  · obtain ⟨q, hq⟩ := mem_bht_lines h
    exact string_append2_ne _ _ _ _ 'B' 'N' (by decide) (by decide) (by decide) hq.symm

/-- Anything in the obstructive segment is in the interpretation list. -/
lemma obstructive_sub_interpretation {f v r a : ℚ} {g : String} {hgt : ℚ}
    {e : String} {d1 d2 d3 d4 d5 : Option ℚ} {s : String}
    (hs : s ∈ obstructive_lines f r (calculate_lln 1.0 a g hgt e)) :
    s ∈ interpretation_list f v r a g hgt e d1 d2 d3 d4 d5 := by
  unfold interpretation_list
  simp only [List.mem_append]
  tauto

/-! ### Claims -/

/-- C1 (counterexample): the claim fails as universally quantified over
demographics.  At age 40, height 170 cm, Caucasian, the LLN cutoff is
8.70 > 1.0, so the obstructive branch fires on fev1Pct=100,
fvcPct=100, fev1FvcRatio=1.0 with no optional measurements, and the
output is not the two-line normal sequence. -/
theorem interpret_pft_normal_counterexample :
    interpret_pft 100 100 1 40 "Male" 170 "Caucasian" none none none none none ≠
      ["Normal PFT values.",
       "Next steps: No action needed. Encourage routine follow-up if indicated."] := by
  with_unfolding_all decide

/-- C1 (amended): for fev1Pct=100, fvcPct=100, fev1FvcRatio=1.0 and no
optional measurements, the output is exactly the two-line normal
sequence whenever the computed LLN cutoff is at most 1.0 (i.e. the
obstructive check does not fire). -/
theorem interpret_pft_normal_of_lln_le_one (a : ℚ) (g : String) (hgt : ℚ) (e : String)
    (hlln : calculate_lln 1.0 a g hgt e ≤ 1) :
    interpret_pft 100 100 1 a g hgt e none none none none none =
      ["Normal PFT values.",
       "Next steps: No action needed. Encourage routine follow-up if indicated."] := by
  unfold interpret_pft
  have hob : obstructive_lines 100 1 (calculate_lln 1.0 a g hgt e) = [] :=
    obstructive_lines_of_not_lt (not_lt.mpr hlln)
  have hres : restrictive_lines 100 1 (calculate_lln 1.0 a g hgt e) = [] := by
    unfold restrictive_lines
    rw [if_neg]
    intro hc
    exact absurd hc.1 (by norm_num)
  have hmix : mixed_lines 1 100 (calculate_lln 1.0 a g hgt e) = [] := by
    unfold mixed_lines
    rw [if_neg]
    intro hc
    exact absurd hc.2 (by norm_num)
  unfold interpretation_list
  simp only [hob, hres, hmix, dlco_lines, dl_va_lines, va_sb_lines, ivc_sb_lines, bht_lines]
  simp [normal_lines]

/-- Witness for C1 (amended) at age 0, height 0, where the cutoff is
exactly 1.0. -/
theorem interpret_pft_normal_of_lln_le_one_witness :
    interpret_pft 100 100 1 0 "Male" 0 "Caucasian" none none none none none =
      ["Normal PFT values.",
       "Next steps: No action needed. Encourage routine follow-up if indicated."] :=
  interpret_pft_normal_of_lln_le_one 0 "Male" 0 "Caucasian" (by with_unfolding_all decide)

/-- C2 (counterexample): contrary to the claim, a negative fev1Pct
does receive a severity band — the final `fev1 < 50` branch catches
it, emitting "Severe obstruction" (here at fev1Pct = -1 with the
obstructive check firing). -/
theorem severity_negative_counterexample :
    ((1:ℚ)/2 < calculate_lln 1.0 0 "Male" 0 "Caucasian") ∧ ((-1 : ℚ) < 0) ∧
    "Severity: Severe obstruction." ∈
      interpret_pft (-1) 100 (1/2) 0 "Male" 0 "Caucasian" none none none none none := by
  with_unfolding_all decide

/-- C2 (amended): when the obstructive check fires, exactly one of the
three severity bands is appended for every fev1Pct — Mild for
fev1Pct ≥ 70, Moderate for 50 ≤ fev1Pct < 70, and Severe for
fev1Pct < 50, the last band also catching negative values. -/
theorem severity_exactly_one
    (f v r a : ℚ) (g : String) (hgt : ℚ) (e : String) (d1 d2 d3 d4 d5 : Option ℚ)
    (hr : r < calculate_lln 1.0 a g hgt e) :
    (f ≥ 70 →
      "Severity: Mild obstruction." ∈ interpret_pft f v r a g hgt e d1 d2 d3 d4 d5 ∧
      "Severity: Moderate obstruction." ∉ interpret_pft f v r a g hgt e d1 d2 d3 d4 d5 ∧
      "Severity: Severe obstruction." ∉ interpret_pft f v r a g hgt e d1 d2 d3 d4 d5) ∧
    (50 ≤ f ∧ f < 70 →
      "Severity: Moderate obstruction." ∈ interpret_pft f v r a g hgt e d1 d2 d3 d4 d5 ∧
      "Severity: Mild obstruction." ∉ interpret_pft f v r a g hgt e d1 d2 d3 d4 d5 ∧
      "Severity: Severe obstruction." ∉ interpret_pft f v r a g hgt e d1 d2 d3 d4 d5) ∧
    (f < 50 →
      "Severity: Severe obstruction." ∈ interpret_pft f v r a g hgt e d1 d2 d3 d4 d5 ∧
      "Severity: Mild obstruction." ∉ interpret_pft f v r a g hgt e d1 d2 d3 d4 d5 ∧
      "Severity: Moderate obstruction." ∉ interpret_pft f v r a g hgt e d1 d2 d3 d4 d5) := by
  rw [interpret_pft_of_obstructive hr]
  refine ⟨fun h70 => ⟨?_, ?_, ?_⟩, fun hmod => ⟨?_, ?_, ?_⟩, fun hsev => ⟨?_, ?_, ?_⟩⟩
  · apply obstructive_sub_interpretation
    rw [obstructive_lines_of_lt hr, severity_lines_mild h70]
    exact List.mem_cons_of_mem _ (List.mem_cons_self _ _)
  · intro hm
    have hs := sevS_only (by decide) hm
    rw [severity_lines_mild h70] at hs
    exact absurd hs (by decide)
  · intro hm
    have hs := sevS_only (by decide) hm
    rw [severity_lines_mild h70] at hs
    exact absurd hs (by decide)
  · apply obstructive_sub_interpretation
    rw [obstructive_lines_of_lt hr, severity_lines_moderate hmod]
    exact List.mem_cons_of_mem _ (List.mem_cons_self _ _)
  · intro hm
    have hs := sevS_only (by decide) hm
    rw [severity_lines_moderate hmod] at hs
    exact absurd hs (by decide)
  · intro hm
    have hs := sevS_only (by decide) hm
    rw [severity_lines_moderate hmod] at hs
    exact absurd hs (by decide)
  · apply obstructive_sub_interpretation
    rw [obstructive_lines_of_lt hr, severity_lines_severe hsev]
    exact List.mem_cons_of_mem _ (List.mem_cons_self _ _)
  · intro hm
    have hs := sevS_only (by decide) hm
    rw [severity_lines_severe hsev] at hs
    exact absurd hs (by decide)
  · intro hm
    have hs := sevS_only (by decide) hm
    rw [severity_lines_severe hsev] at hs
    exact absurd hs (by decide)

/-- Witness for C2 (amended), Mild case, at fev1Pct = 100 with the
obstructive check firing. -/
theorem severity_exactly_one_witness :
    "Severity: Mild obstruction." ∈
      interpret_pft 100 100 (1/2) 0 "Male" 0 "Caucasian" none none none none none ∧
    "Severity: Moderate obstruction." ∉
      interpret_pft 100 100 (1/2) 0 "Male" 0 "Caucasian" none none none none none ∧
    "Severity: Severe obstruction." ∉
      interpret_pft 100 100 (1/2) 0 "Male" 0 "Caucasian" none none none none none :=
  (severity_exactly_one 100 100 (1/2) 0 "Male" 0 "Caucasian" none none none none none
    (by with_unfolding_all decide)).1 (by norm_num)

/-- C3: the restrictive and mixed pattern lines never co-occur in one
output — restrictive needs `fev1_fvc ≥ LLN`, mixed needs
`fev1_fvc < LLN`. -/
theorem restrictive_excludes_mixed
    (f v r a : ℚ) (g : String) (hgt : ℚ) (e : String) (d1 d2 d3 d4 d5 : Option ℚ)
    (hres : "Restrictive pattern detected." ∈ interpret_pft f v r a g hgt e d1 d2 d3 d4 d5) :
    "Mixed obstructive and restrictive pattern detected." ∉
      interpret_pft f v r a g hgt e d1 d2 d3 d4 d5 := by
  intro hmix
  unfold interpret_pft at hres hmix
  by_cases hL : interpretation_list f v r a g hgt e d1 d2 d3 d4 d5 = []
  · rw [if_pos hL] at hres
    exact absurd hres (by decide)
  · rw [if_neg hL] at hres hmix
    have h1 := restrictive_mem_interpretation hres
    have h2 := mixed_mem_interpretation hmix
    exact absurd h2.1 (not_lt.mpr h1.2)

/-- Witness for C3 at a restrictive-only input (fvcPct = 70,
fev1FvcRatio = 1 = LLN). -/
theorem restrictive_excludes_mixed_witness :
    "Mixed obstructive and restrictive pattern detected." ∉
      interpret_pft 100 70 1 0 "Male" 0 "Caucasian" none none none none none :=
  restrictive_excludes_mixed 100 70 1 0 "Male" 0 "Caucasian" none none none none none
    (by with_unfolding_all decide)

/-- C9: whenever fev1FvcRatio ≤ 1 and the raw LLN cutoff
`adjustmentFactor * (1.0 - age*0.02 + height*0.05)` exceeds 1, the
output starts with the obstructive line and never contains the
"Normal PFT values." fallback, regardless of fev1Pct and fvcPct. -/
theorem obstructive_first_and_no_normal
    (f v r a : ℚ) (g : String) (hgt : ℚ) (e : String) (d1 d2 d3 d4 d5 : Option ℚ)
    (hratio : r ≤ 1)
    (hcut : 1 < adjustment_factor e * (1.0 - a * 0.02 + hgt * 0.05)) :
    (interpret_pft f v r a g hgt e d1 d2 d3 d4 d5).head? =
      some (obstructive_head (calculate_lln 1.0 a g hgt e)) ∧
    "Normal PFT values." ∉ interpret_pft f v r a g hgt e d1 d2 d3 d4 d5 := by
  have hlv : calculate_lln 1.0 a g hgt e =
      adjustment_factor e * (1.0 - a * 0.02 + hgt * 0.05) := by
    simp only [calculate_lln]
    exact max_eq_right (le_of_lt (lt_trans zero_lt_one hcut))
  have hlt : r < calculate_lln 1.0 a g hgt e := by
    rw [hlv]
    exact lt_of_le_of_lt hratio hcut
  rw [interpret_pft_of_obstructive hlt]
  constructor
  · simp only [interpretation_list]
    rw [obstructive_lines_of_lt hlt]
    simp only [List.cons_append, List.head?_cons]
  · intro hN
    exact normal_not_mem_interpretation hN

/-- Witness for C9 at age 0, height 1 cm, Caucasian (cutoff 1.05),
ratio 1. -/
theorem obstructive_first_and_no_normal_witness :
    (interpret_pft 100 100 1 0 "Male" 1 "Caucasian" none none none none none).head? =
      some (obstructive_head (calculate_lln 1.0 0 "Male" 1 "Caucasian")) ∧
    "Normal PFT values." ∉
      interpret_pft 100 100 1 0 "Male" 1 "Caucasian" none none none none none :=
  obstructive_first_and_no_normal 100 100 1 0 "Male" 1 "Caucasian" none none none none none
    (le_refl 1) (by with_unfolding_all decide)

/-- C10: whenever the mixed line is in the output, the obstructive
line is too (the mixed condition strengthens the obstructive one). -/
theorem mixed_implies_obstructive
    (f v r a : ℚ) (g : String) (hgt : ℚ) (e : String) (d1 d2 d3 d4 d5 : Option ℚ)
    (hmix : "Mixed obstructive and restrictive pattern detected." ∈
      interpret_pft f v r a g hgt e d1 d2 d3 d4 d5) :
    obstructive_head (calculate_lln 1.0 a g hgt e) ∈
      interpret_pft f v r a g hgt e d1 d2 d3 d4 d5 := by
  unfold interpret_pft at hmix ⊢
  by_cases hL : interpretation_list f v r a g hgt e d1 d2 d3 d4 d5 = []
  · rw [if_pos hL] at hmix
    exact absurd hmix (by decide)
  · rw [if_neg hL] at hmix ⊢
    have hc := mixed_mem_interpretation hmix
    apply obstructive_sub_interpretation
    rw [obstructive_lines_of_lt hc.1]
    exact List.mem_cons_self _ _

/-- Witness for C10 at a mixed-pattern input (ratio 1/2 < LLN 1,
fvcPct 70 < 80). -/
theorem mixed_implies_obstructive_witness :
    obstructive_head (calculate_lln 1.0 0 "Male" 0 "Caucasian") ∈
      interpret_pft 100 70 (1/2) 0 "Male" 0 "Caucasian" none none none none none :=
  mixed_implies_obstructive 100 70 (1/2) 0 "Male" 0 "Caucasian" none none none none none
    (by with_unfolding_all decide)

/-- C4: `calculate_pef` is `none` exactly for a gender other than Male
or Female, and otherwise applies the stated linear formula with no
clamping. -/
theorem calculate_pef_spec (age height : ℚ) (gender : String) :
    (calculate_pef age gender height = none ↔ gender ≠ "Male" ∧ gender ≠ "Female") ∧
    (gender = "Male" →
      calculate_pef age gender height = some (187 + (5.48 * height) - (0.034 * age))) ∧
    (gender = "Female" →
      calculate_pef age gender height = some (153 + (4.50 * height) - (0.026 * age))) := by
  unfold calculate_pef
  by_cases h1 : gender = "Male" <;> by_cases h2 : gender = "Female" <;> simp_all

/-- Witness for C4 at gender "Other", "Male" and "Female". -/
theorem calculate_pef_spec_witness :
    calculate_pef 30 "Other" 170 = none ∧
    calculate_pef 30 "Male" 170 = some (187 + (5.48 * 170) - (0.034 * 30)) ∧
    calculate_pef 30 "Female" 170 = some (153 + (4.50 * 170) - (0.026 * 30)) :=
  ⟨(calculate_pef_spec 30 170 "Other").1.mpr (by decide),
   (calculate_pef_spec 30 170 "Male").2.1 rfl,
   (calculate_pef_spec 30 170 "Female").2.2 rfl⟩

/-- C5: the non-negativity clamp of `calculate_lln` holds universally. -/
theorem calculate_lln_nonneg (p a hgt : ℚ) (g e : String) :
    0 ≤ calculate_lln p a g hgt e := by
  unfold calculate_lln
  exact le_max_left 0 _

/-- C6: the adjustment factor is 1.0 for Caucasian, 0.88 for African
American, 0.94 for Asian, and 1.0 for any other ethnicity; hence any
other ethnicity yields the same LLN as Caucasian. -/
theorem calculate_lln_ethnicity_adjustment (p a hgt : ℚ) (g e : String) :
    adjustment_factor "Caucasian" = 1.0 ∧
    adjustment_factor "African American" = 0.88 ∧
    adjustment_factor "Asian" = 0.94 ∧
    (e ≠ "Caucasian" → e ≠ "African American" → e ≠ "Asian" →
      adjustment_factor e = 1.0 ∧
      calculate_lln p a g hgt e = calculate_lln p a g hgt "Caucasian") := by
  refine ⟨by with_unfolding_all decide, by with_unfolding_all decide,
    by with_unfolding_all decide, ?_⟩
  intro h1 h2 h3
  have hfac : adjustment_factor e = 1.0 := by
    unfold adjustment_factor
    rw [if_neg h1, if_neg h2, if_neg h3]
  have hcau : adjustment_factor "Caucasian" = 1.0 := by with_unfolding_all decide
  refine ⟨hfac, ?_⟩
  simp only [calculate_lln]
  rw [hfac, hcau]

/-- Witness for C6 at the out-of-enumeration ethnicity "Hispanic". -/
theorem calculate_lln_ethnicity_adjustment_witness :
    adjustment_factor "Hispanic" = 1.0 ∧
    calculate_lln 1 30 "Male" 170 "Hispanic" = calculate_lln 1 30 "Male" 170 "Caucasian" :=
  (calculate_lln_ethnicity_adjustment 1 30 170 "Male" "Hispanic").2.2.2
    (by decide) (by decide) (by decide)

/-- C7: `calculate_lln` ignores its gender argument. -/
theorem calculate_lln_gender_blind (p a hgt : ℚ) (e : String) (g1 g2 : String) :
    calculate_lln p a g1 hgt e = calculate_lln p a g2 hgt e := rfl

/-- C8: `interpret_pft` is deterministic — identical inputs, argument
by argument, give identical output lists. -/
theorem interpret_pft_deterministic
    (f v r a : ℚ) (g : String) (hgt : ℚ) (e : String) (d1 d2 d3 d4 d5 : Option ℚ)
    (f' v' r' a' : ℚ) (g' : String) (hgt' : ℚ) (e' : String) (d1' d2' d3' d4' d5' : Option ℚ)
    (h1 : f = f') (h2 : v = v') (h3 : r = r') (h4 : a = a') (h5 : g = g')
    (h6 : hgt = hgt') (h7 : e = e') (h8 : d1 = d1') (h9 : d2 = d2') (h10 : d3 = d3')
    (h11 : d4 = d4') (h12 : d5 = d5') :
    interpret_pft f v r a g hgt e d1 d2 d3 d4 d5 =
      interpret_pft f' v' r' a' g' hgt' e' d1' d2' d3' d4' d5' := by
  subst h1 h2 h3 h4 h5 h6 h7 h8 h9 h10 h11 h12
  rfl

/-- Witness for C8 at a concrete input with one optional measurement
present. -/
theorem interpret_pft_deterministic_witness :
    interpret_pft 100 100 1 30 "Female" 160 "Asian" (some 70) none none none none =
      interpret_pft 100 100 1 30 "Female" 160 "Asian" (some 70) none none none none :=
  interpret_pft_deterministic 100 100 1 30 "Female" 160 "Asian" (some 70) none none none none
    100 100 1 30 "Female" 160 "Asian" (some 70) none none none none
    rfl rfl rfl rfl rfl rfl rfl rfl rfl rfl rfl rfl

end PftDl
